import Mathlib

/-!
Verification of the generic repository layer in
`src/backend/src/repositories/base.py` (class `BaseRepository`).

The repository wraps a session factory and an entity type; each operation
opens a fresh session, runs one statement, commits if mutating, and wraps
any underlying failure into a `DatabaseError` message carrying the model
name, chained (`raise ... from e`) from the original cause.

Shallow embedding choices:
- An entity is its attribute record, an association list from attribute
  names to values (`model(**kwargs)` sets named attributes; `filter_by`
  compares them for equality; the primary key is the attribute "id").
- The database state is the committed rows plus the id sequence used to
  populate an auto-generated "id" on commit.
- Python exceptions are values of `PyError`; every public operation returns
  `Except PyError _`.
- Every handler runs `raise DatabaseError(f"...") from e`.  The file
  imports `async_sessionmaker` (SQLAlchemy 2.x), where `DatabaseError` is a
  `DBAPIError` whose constructor requires `(statement, params, orig)`; the
  single-argument call therefore raises
  `TypeError("DBAPIError.__init__() missing 2 required positional
  arguments: 'params' and 'orig'")` while handling `e`.  The `from e`
  never executes: what actually propagates from every error path is that
  unclassified `TypeError`, with `__context__ = e` (implicit chaining) and
  no `__cause__`, and the message carrying the model name is discarded.
  `raiseWrapped` embeds this handler behaviour; the classified
  `PyError.databaseError` value the handler meant to raise is never
  produced.
- Lower-level storage failures (connection loss, constraint violation,
  timeout) are injected through a `fail : Option PyError` parameter: when
  it is `some e`, the session interaction of the operation raises `e`,
  which the operation's `except Exception` handler then tries to wrap.
-/

namespace SchemasRmg

/-- Attribute values stored in entity columns. -/
inductive Value where
  | vint : Int → Value
  | vstr : String → Value
  | vbool : Bool → Value
deriving DecidableEq, Repr

/-- Named field values: the `**kwargs` of the Python operations. -/
abbrev Fields := List (String × Value)

/-- A persisted entity: its named attributes (the primary key is "id"). -/
abbrev Entity := List (String × Value)

/-- Attribute read (`getattr` / column access): first binding of the key. -/
def getAttr : Entity → String → Option Value
  | [], _ => none
  | (k', v) :: rest, k => if k' = k then some v else getAttr rest k

/-- Attribute assignment (`setattr`): replace the binding in place, or
append a new one. -/
def setAttr : Entity → String → Value → Entity
  | [], k, v => [(k, v)]
  | (k', v') :: rest, k, v =>
      if k' = k then (k, v) :: rest else (k', v') :: setAttr rest k v

/-- `filter_by(**kwargs)`: every named field equals the given value. -/
def matchesBy (e : Entity) (kw : Fields) : Bool :=
  kw.all (fun p => decide (getAttr e p.1 = some p.2))

/-- The primary-key attribute (`self.model.id`). -/
def rowId (e : Entity) : Option Value := getAttr e "id"

/-- Committed database state for one entity type: the id sequence and the
stored rows. -/
structure DB where
  nextId : Int
  rows : List Entity
deriving DecidableEq, Repr

/-- Python exceptions as the operations see them.  `dbFailure`, `keyError`
(from `kwargs['id']`) and `multipleResults` (from `scalar_one_or_none`)
are the lower-level causes.  `databaseError msg cause` is the classified
`sqlalchemy.exc.DatabaseError` the handlers *intend* to raise via
`raise DatabaseError(msg) from cause`; under SQLAlchemy 2.x that
construction never succeeds, so no operation ever produces this value.
`typeError msg context` is the `TypeError` the failed constructor call
raises instead, with `context` its implicit `__context__` (the exception
being handled); it has no `__cause__`. -/
inductive PyError where
  | dbFailure : String → PyError
  | keyError : String → PyError
  | multipleResults : PyError
  | databaseError : String → PyError → PyError
  | typeError : String → PyError → PyError
deriving DecidableEq, Repr

/-- The repository binds one entity type; `modelName` is
`self.model.__name__`, used in every (discarded) error message. -/
structure Repo where
  modelName : String
deriving DecidableEq, Repr

/-- The message of the `TypeError` raised by `DatabaseError(msg)`:
`DBAPIError.__init__` requires `statement`, `params` and `orig`. -/
def dbapiInitTypeError : String :=
  "DBAPIError.__init__() missing 2 required positional arguments: 'params' and 'orig'"

/-- The `except Exception as e: ... raise DatabaseError(msg) from e`
handler shared by all operations.  The f-string `msg` (which carries the
model name) is evaluated, but the single-argument `DatabaseError`
construction then raises `TypeError` while handling `e`, so the handler
actually propagates that unclassified `TypeError` with `__context__ = e`;
`msg` is discarded and `from e` never runs. -/
def raiseWrapped (msg : String) (e : PyError) : PyError :=
  PyError.typeError dbapiInitTypeError e

/-- `self.model(**kwargs)` followed by commit-time id generation: the
entity carries exactly the given fields, plus an auto-generated integer
"id" when none was supplied. -/
def instantiate (nextId : Int) (kwargs : Fields) : Entity :=
  if getAttr kwargs "id" = none then kwargs ++ [("id", Value.vint nextId)]
  else kwargs

/-- The committed state after `session.add(obj); await session.commit()`
in `_create`: the new row is appended and the id sequence advances when it
generated the id. -/
def commitCreate (db : DB) (kwargs : Fields) : DB :=
  { nextId := if getAttr kwargs "id" = none then db.nextId + 1 else db.nextId
    rows := db.rows ++ [instantiate db.nextId kwargs] }

/-- `BaseRepository._create`: instantiate, add, commit, refresh, return;
on failure the handler attempts
`raise DatabaseError("Не удалось создать " + name) from e`. -/
def _create (repo : Repo) (fail : Option PyError) (db : DB)
    (kwargs : Fields) : Except PyError (Entity × DB) :=
  match fail with
  | some e =>
      .error (raiseWrapped ("Не удалось создать " ++ repo.modelName) e)
  | none => .ok (instantiate db.nextId kwargs, commitCreate db kwargs)

/-- `BaseRepository._get`: `select(model).filter_by(**kwargs)` then
`scalar_one_or_none()` — `none` on zero rows, the row on one,
`MultipleResultsFound` on several; every failure goes through the
handler's attempted `DatabaseError("Не удалось получить " + name)`. -/
def _get (repo : Repo) (fail : Option PyError) (db : DB)
    (kwargs : Fields) : Except PyError (Option Entity) :=
  match fail with
  | some e =>
      .error (raiseWrapped ("Не удалось получить " ++ repo.modelName) e)
  | none =>
      match db.rows.filter (fun r => matchesBy r kwargs) with
      | [] => .ok none
      | [r] => .ok (some r)
      | _ :: _ :: _ =>
          .error (raiseWrapped ("Не удалось получить " ++ repo.modelName)
            .multipleResults)

/-- `BaseRepository._create_if_not_exists`: `_get`, then `_create` when
absent; returns `(obj, created)`; any exception from the two calls hits
its own handler's attempted `DatabaseError` construction once more. -/
def _create_if_not_exists (repo : Repo) (fail : Option PyError) (db : DB)
    (kwargs : Fields) : Except PyError ((Entity × Bool) × DB) :=
  match _get repo fail db kwargs with
  | .error e =>
      .error (raiseWrapped ("Не удалось создать объект " ++ repo.modelName) e)
  | .ok (some obj) => .ok ((obj, false), db)
  | .ok none =>
      match _create repo fail db kwargs with
      | .error e =>
          .error
            (raiseWrapped ("Не удалось создать объект " ++ repo.modelName) e)
      | .ok (obj, db2) => .ok ((obj, true), db2)

/-- `BaseRepository._get_all`: `select(model).filter_by(**kwargs)` then
`.scalars().all()`. -/
def _get_all (repo : Repo) (fail : Option PyError) (db : DB)
    (kwargs : Fields) : Except PyError (List Entity) :=
  match fail with
  | some e =>
      .error
        (raiseWrapped ("Не удалось получить все объекты " ++ repo.modelName) e)
  | none => .ok (db.rows.filter (fun r => matchesBy r kwargs))

/-- `BaseRepository._update`: the Python body loops over `kwargs.items()`
but commits, refreshes and RETURNS inside the loop, so only the first
field is assigned and committed; with no fields the loop never runs and
the function falls through, returning `None`. -/
def _update (repo : Repo) (fail : Option PyError) (db : DB) (obj : Entity)
    (kwargs : Fields) : Except PyError (Option Entity × DB) :=
  match fail with
  | some e =>
      .error (raiseWrapped ("Не удалось обновить объект " ++ repo.modelName) e)
  | none =>
      match kwargs with
      | [] => .ok (none, db)
      | (k, v) :: _ =>
          let obj2 := setAttr obj k v
          .ok (some obj2,
            { nextId := db.nextId
              rows := db.rows.map
                (fun r => if rowId r = rowId obj then obj2 else r) })

/-- `BaseRepository._delete`: `session.delete(obj); commit` removes the
row with the object's primary key. -/
def _delete (repo : Repo) (fail : Option PyError) (db : DB)
    (obj : Entity) : Except PyError (Unit × DB) :=
  match fail with
  | some e =>
      .error (raiseWrapped ("Не удалось удалить объект " ++ repo.modelName) e)
  | none =>
      .ok ((),
        { nextId := db.nextId
          rows := db.rows.filter (fun r => !decide (rowId r = rowId obj)) })

/-- `BaseRepository._exists`: builds `select(exists().where(model.id ==
kwargs['id']))` — `kwargs['id']` raises `KeyError` when absent — then
returns `result.scalar_one_or_none() is not None`.  The EXISTS query
always yields exactly one boolean row, so the scalar is that boolean
(never `None`). -/
def _exists (repo : Repo) (fail : Option PyError) (db : DB)
    (kwargs : Fields) : Except PyError Bool :=
  match fail with
  | some e =>
      .error
        (raiseWrapped
          ("Не удалось проверить существование объекта " ++ repo.modelName) e)
  | none =>
      match getAttr kwargs "id" with
      | none =>
          .error
            (raiseWrapped
              ("Не удалось проверить существование объекта " ++ repo.modelName)
              (.keyError "id"))
      | some v =>
          let existsRow : Bool := db.rows.any (fun r => decide (rowId r = some v))
          let scalar : Option Bool := some existsRow
          .ok scalar.isSome

/-- `BaseRepository._filter`: byte-for-byte the same query as `_get_all`,
only the error message differs. -/
def _filter (repo : Repo) (fail : Option PyError) (db : DB)
    (kwargs : Fields) : Except PyError (List Entity) :=
  match fail with
  | some e =>
      .error
        (raiseWrapped ("Не удалось отфильтровать объекты " ++ repo.modelName) e)
  | none => .ok (db.rows.filter (fun r => matchesBy r kwargs))

/-- `BaseRepository._delete_all`: `delete(model)` then commit removes every
row of the type. -/
def _delete_all (repo : Repo) (fail : Option PyError) (db : DB) :
    Except PyError (Unit × DB) :=
  match fail with
  | some e =>
      .error
        (raiseWrapped ("Не удалось удалить все объекты " ++ repo.modelName) e)
  | none => .ok ((), { nextId := db.nextId, rows := [] })

/-! Concrete demonstration data used by the bug-exhibiting theorems. -/

/-- A repository for a model named "User". -/
def demoRepo : Repo := ⟨"User"⟩

/-- A stored entity with id 1, name "a", flag false. -/
def demoObj : Entity :=
  [("id", Value.vint 1), ("name", Value.vstr "a"), ("flag", Value.vbool false)]

/-- Storage holding exactly `demoObj`. -/
def demoDB : DB := ⟨2, [demoObj]⟩

/-- What the buggy update actually produces: only "name" changed. -/
def demoUpdated : Entity :=
  [("id", Value.vint 1), ("name", Value.vstr "b"), ("flag", Value.vbool false)]

/-- A storage state with two rows matching the filter name = "a". -/
def twoMatchDB : DB :=
  ⟨3, [demoObj, [("id", Value.vint 2), ("name", Value.vstr "a")]]⟩

/-! Theorems settling the claims. -/

/-- Claim C9: calling `_update` with an empty set of field values returns
`None` instead of the refreshed entity and leaves the stored state (and
the entity) unchanged: the Python loop body never runs and the function
falls off its end. -/
theorem update_empty_fields_returns_none (repo : Repo) (db : DB)
    (obj : Entity) : _update repo none db obj [] = .ok (none, db) := rfl

/-- Claim C3 fails on the code: when a lower-level failure is raised
while touching storage, no operation raises the classified, name-carrying
`DatabaseError` chained from the cause — under SQLAlchemy 2.x the
handler's single-argument `DatabaseError(msg)` call itself raises
`TypeError`, so every operation propagates that unclassified `TypeError`
(implicitly context-chained, message without the entity type name), and
`_create_if_not_exists` merely wraps the inner `TypeError` in a second
one. -/
theorem storage_failure_raises_typeerror (repo : Repo) (low : PyError)
    (db : DB) (kwargs : Fields) (obj : Entity) :
    _create repo (some low) db kwargs =
      .error (.typeError dbapiInitTypeError low) ∧
    _get repo (some low) db kwargs =
      .error (.typeError dbapiInitTypeError low) ∧
    _get_all repo (some low) db kwargs =
      .error (.typeError dbapiInitTypeError low) ∧
    _update repo (some low) db obj kwargs =
      .error (.typeError dbapiInitTypeError low) ∧
    _delete repo (some low) db obj =
      .error (.typeError dbapiInitTypeError low) ∧
    _exists repo (some low) db kwargs =
      .error (.typeError dbapiInitTypeError low) ∧
    _filter repo (some low) db kwargs =
      .error (.typeError dbapiInitTypeError low) ∧
    _delete_all repo (some low) db =
      .error (.typeError dbapiInitTypeError low) ∧
    _create_if_not_exists repo (some low) db kwargs =
      .error (.typeError dbapiInitTypeError
        (.typeError dbapiInitTypeError low)) ∧
    (∀ m c, PyError.typeError dbapiInitTypeError low ≠
      PyError.databaseError m c) :=
  ⟨rfl, rfl, rfl, rfl, rfl, rfl, rfl, rfl, rfl,
    fun _ _ h => PyError.noConfusion h⟩

/-- Claim C6: `_filter` and `_get_all` return the same collection of
entities on every storage state, every set of equality filter fields and
every injected failure (on failure neither returns a collection). -/
theorem filter_returns_same_as_get_all (repo : Repo) (fail : Option PyError)
    (db : DB) (kwargs : Fields) (xs : List Entity) :
    _filter repo fail db kwargs = .ok xs ↔
      _get_all repo fail db kwargs = .ok xs := by
  cases fail <;> simp [ _filter, _get_all]

/-- Claim C7: when no stored entity matches the filter — in particular
right after `_delete` removed the only match — `_get` returns the absent
result, never an error. -/
theorem get_without_match_returns_absent (repo : Repo) (db : DB)
    (kwargs : Fields)
    (h : db.rows.filter (fun r => matchesBy r kwargs) = []) :
    _get repo none db kwargs = .ok none := by
  simp [ _get, h]

/-- Witness for C7, on the spec's delete-then-get scenario: deleting the
only match of the filter leaves a state where `_get` returns absence. -/
theorem get_without_match_returns_absent_witness :
    _delete demoRepo none demoDB demoObj = .ok ((), ⟨2, []⟩) ∧
    (⟨2, []⟩ : DB).rows.filter
      (fun r => matchesBy r [("name", Value.vstr "a")]) = [] ∧
    _get demoRepo none ⟨2, []⟩ [("name", Value.vstr "a")] = .ok none :=
  ⟨rfl, by decide,
    get_without_match_returns_absent demoRepo ⟨2, []⟩
      [("name", Value.vstr "a")] (by decide)⟩

/-- Claim C8 fails on the code: `_exists` without an "id" field does not
fail with the defined classified storage error — the `KeyError` from
`kwargs['id']` is caught, but the handler's single-argument
`DatabaseError(msg)` call crashes with the ambiguous unclassified
`TypeError` (context-chained to the `KeyError`), and that is what the
caller sees. -/
theorem exists_without_id_crashes_typeerror :
    getAttr [("name", Value.vstr "a")] "id" = none ∧
    _exists demoRepo none demoDB [("name", Value.vstr "a")] =
      .error (.typeError dbapiInitTypeError (.keyError "id")) ∧
    (∀ m c, PyError.typeError dbapiInitTypeError (PyError.keyError "id") ≠
      PyError.databaseError m c) :=
  ⟨by decide, rfl, fun _ _ h => PyError.noConfusion h⟩

/-- Claim C10 fails on the code: with more than one stored match, `_get`
does raise rather than return one of the matches, but not the classified
storage error — the handler wrapping the `MultipleResultsFound` raised by
`scalar_one_or_none` crashes with the unclassified `TypeError`. -/
theorem get_multiple_matches_crashes_typeerror :
    twoMatchDB.rows.filter (fun r => matchesBy r [("name", Value.vstr "a")]) =
      [demoObj, [("id", Value.vint 2), ("name", Value.vstr "a")]] ∧
    _get demoRepo none twoMatchDB [("name", Value.vstr "a")] =
      .error (.typeError dbapiInitTypeError .multipleResults) ∧
    (∀ m c, PyError.typeError dbapiInitTypeError PyError.multipleResults ≠
      PyError.databaseError m c) :=
  ⟨by decide, rfl, fun _ _ h => PyError.noConfusion h⟩

/-- Claim C1 fails on the code: updating `demoObj` with the two field
values name = "b", flag = true returns an entity in which only the FIRST
field is changed — the returned (and stored) entity still has flag =
false, because the loop in `_update` commits and returns after the first
assignment.  The docstring and the spec promise the fully updated
entity. -/
theorem update_returns_only_first_change :
    _update demoRepo none demoDB demoObj
        [("name", Value.vstr "b"), ("flag", Value.vbool true)] =
      .ok (some demoUpdated, ⟨2, [demoUpdated]⟩) ∧
    getAttr demoUpdated "flag" = some (Value.vbool false) := ⟨rfl, by decide⟩

/-- Claim C4 fails on the code at the same input: `_update` with two field
values raises no error, yet the committed state holds a partial change —
the stored row differs from the entity with both assignments applied, so a
partial commit is visible without an error. -/
theorem update_commits_partial_change :
    _update demoRepo none demoDB demoObj
        [("name", Value.vstr "b"), ("flag", Value.vbool true)] =
      .ok (some demoUpdated, ⟨2, [demoUpdated]⟩) ∧
    demoUpdated ≠
      setAttr (setAttr demoObj "name" (Value.vstr "b")) "flag"
        (Value.vbool true) := ⟨rfl, by decide⟩

/-- Claim C2 fails on the code: after `_create` produced the entity with
id 0 and `_delete` removed it, `_exists` for id 0 still returns `true` —
`scalar_one_or_none()` on the one-row EXISTS query yields the boolean
`False`, and `False is not None` is `True`, so `_exists` never returns
`false`. -/
theorem exists_returns_true_after_delete :
    _create demoRepo none ⟨0, []⟩ [("name", Value.vstr "a")] =
      .ok ([("name", Value.vstr "a"), ("id", Value.vint 0)], ⟨1,
        [[("name", Value.vstr "a"), ("id", Value.vint 0)]]⟩) ∧
    _delete demoRepo none
      ⟨1, [[("name", Value.vstr "a"), ("id", Value.vint 0)]]⟩
      [("name", Value.vstr "a"), ("id", Value.vint 0)] =
      .ok ((), ⟨1, []⟩) ∧
    _exists demoRepo none ⟨1, []⟩ [("id", Value.vint 0)] = .ok true :=
  ⟨rfl, rfl, rfl⟩

/-! Supporting lemmas for the `_create_if_not_exists` round trip (C5). -/

/-- A key bound in the first list is found unchanged after appending. -/
theorem getAttr_append_of_some {xs : Entity} {k : String} {v : Value}
    (ys : Entity) (h : getAttr xs k = some v) :
    getAttr (xs ++ ys) k = some v := by
  induction xs with
  | nil => simp [getAttr] at h
  | cons p rest ih =>
      obtain ⟨k', v'⟩ := p
      by_cases hk : k' = k
      · simpa [getAttr, hk] using h
      · rw [List.cons_append]
        simp only [getAttr, hk, if_false] at h ⊢
        exact ih h

/-- With distinct keys (Python `**kwargs` is a dict), membership gives the
lookup value. -/
theorem getAttr_of_mem {kwargs : Fields} {k : String} {v : Value}
    (hnd : (kwargs.map Prod.fst).Nodup) (hm : (k, v) ∈ kwargs) :
    getAttr kwargs k = some v := by
  induction kwargs with
  | nil => cases hm
  | cons p rest ih =>
      obtain ⟨k', v'⟩ := p
      simp only [List.map_cons, List.nodup_cons] at hnd
      rcases List.mem_cons.mp hm with heq | hmem
      · obtain ⟨rfl, rfl⟩ := Prod.mk.injEq .. ▸ heq
        simp [getAttr]
      · have hne : k' ≠ k := by
          rintro rfl
          exact hnd.1 (List.mem_map.mpr ⟨(k', v), hmem, rfl⟩)
        simpa [getAttr, hne] using ih hnd.2 hmem

/-- The entity built by `_create` from `kwargs` satisfies the equality
filter `kwargs` itself. -/
theorem matchesBy_instantiate (n : Int) (kwargs : Fields)
    (hnd : (kwargs.map Prod.fst).Nodup) :
    matchesBy (instantiate n kwargs) kwargs = true := by
  unfold matchesBy
  rw [List.all_eq_true]
  intro p hp
  obtain ⟨k, v⟩ := p
  rw [decide_eq_true_iff]
  have h1 : getAttr kwargs k = some v := getAttr_of_mem hnd hp
  unfold instantiate
  by_cases hid : getAttr kwargs "id" = none
  · rw [if_pos hid]
    exact getAttr_append_of_some _ h1
  · rw [if_neg hid]
    exact h1

/-- Claim C5: starting from any state with no entity matching the filter
fields, `_create_if_not_exists` reports `was_created = true` and commits
the new entity; the immediate second call with the identical fields
reports `was_created = false` and returns the very same entity (hence the
same identity), leaving the state unchanged. -/
theorem get_or_create_twice (repo : Repo) (db : DB) (kwargs : Fields)
    (hnd : (kwargs.map Prod.fst).Nodup)
    (habs : db.rows.filter (fun r => matchesBy r kwargs) = []) :
    _create_if_not_exists repo none db kwargs =
      .ok ((instantiate db.nextId kwargs, true), commitCreate db kwargs) ∧
    _create_if_not_exists repo none (commitCreate db kwargs) kwargs =
      .ok ((instantiate db.nextId kwargs, false), commitCreate db kwargs) := by
  have hone : (commitCreate db kwargs).rows.filter
      (fun r => matchesBy r kwargs) = [instantiate db.nextId kwargs] := by
    simp only [commitCreate, List.filter_append, habs, List.nil_append]
    simp [List.filter, matchesBy_instantiate db.nextId kwargs hnd]
  constructor
  · simp [ _create_if_not_exists, _get, habs, _create]
  · simp [ _create_if_not_exists, _get, hone]

/-- Witness for C5: the empty state and the single filter field
name = "a". -/
theorem get_or_create_twice_witness :
    ([("name", Value.vstr "a")].map Prod.fst).Nodup ∧
    (⟨0, []⟩ : DB).rows.filter
      (fun r => matchesBy r [("name", Value.vstr "a")]) = [] ∧
    _create_if_not_exists demoRepo none ⟨0, []⟩ [("name", Value.vstr "a")] =
      .ok ((instantiate 0 [("name", Value.vstr "a")], true),
        commitCreate ⟨0, []⟩ [("name", Value.vstr "a")]) ∧
    _create_if_not_exists demoRepo none
        (commitCreate ⟨0, []⟩ [("name", Value.vstr "a")])
        [("name", Value.vstr "a")] =
      .ok ((instantiate 0 [("name", Value.vstr "a")], false),
        commitCreate ⟨0, []⟩ [("name", Value.vstr "a")]) :=
  ⟨by decide, by decide,
    (get_or_create_twice demoRepo ⟨0, []⟩ [("name", Value.vstr "a")]
      (by decide) (by decide)).1,
    (get_or_create_twice demoRepo ⟨0, []⟩ [("name", Value.vstr "a")]
      (by decide) (by decide)).2⟩

end SchemasRmg
